import Mathlib

/-!
Verification of the surround-view calibration generator, a pair of
near-duplicate Python scripts
(`camparameters/generate_calibration.py` and
`calibrationData/GenerateCals/generate_calibration.py`).

Shallow embedding conventions: numpy floating-point arithmetic is modelled
by exact real arithmetic (`ℝ`, `Real.cos`, `Real.sin`, `Real.tan`),
`np.radians` by multiplication with `π / 180`, 3×3 numpy arrays by
`Matrix (Fin 3) (Fin 3) ℝ`, and every file emitted through
`cv2.FileStorage` by its name paired with the ordered list of keyed fields
written into it.  The scripts' hard-coded configuration constants
(image size, field of view, pitch) appear as parameters of the run
functions and are instantiated with the script's literal values.
-/

open Matrix

/-- A value written into a `cv2.FileStorage` field: a scalar float, a 3×3
float matrix, a 3×1 float matrix, a string, an integer, or a length-2
integer array. -/
inductive FieldValue where
  | real (x : ℝ)
  | mat3 (M : Matrix (Fin 3) (Fin 3) ℝ)
  | vec31 (v : Matrix (Fin 3) (Fin 1) ℝ)
  | str (s : String)
  | int (n : ℤ)
  | vec2 (v : ℤ × ℤ)

/-- A file written via `cv2.FileStorage`: its name together with the
ordered list of keyed fields written into it. -/
abbrev StorageFile : Type := String × List (String × FieldValue)

namespace Camparameters

/-- np.radians: degrees to radians. -/
noncomputable def radians (d : ℝ) : ℝ := d * Real.pi / 180

/-- The matrix `Rz` built inside `euler_to_rotation_matrix`
(rotation around the Z-axis, yaw). -/
noncomputable def Rz (yaw : ℝ) : Matrix (Fin 3) (Fin 3) ℝ :=
  !![Real.cos yaw, -Real.sin yaw, 0;
     Real.sin yaw,  Real.cos yaw, 0;
     0,             0,            1]

/-- The matrix `Rx` built inside `euler_to_rotation_matrix`
(rotation around the X-axis, pitch; tilt down is positive). -/
noncomputable def Rx (pitch : ℝ) : Matrix (Fin 3) (Fin 3) ℝ :=
  !![1, 0,              0;
     0, Real.cos pitch, -Real.sin pitch;
     0, Real.sin pitch,  Real.cos pitch]

/-- The matrix `Ry` built inside `euler_to_rotation_matrix`
(rotation around the Y-axis, roll). -/
noncomputable def Ry (roll : ℝ) : Matrix (Fin 3) (Fin 3) ℝ :=
  !![Real.cos roll,  0, Real.sin roll;
     0,              1, 0;
     -Real.sin roll, 0, Real.cos roll]

/-- `euler_to_rotation_matrix(yaw_deg, pitch_deg, roll_deg=0)`: convert the
three angles to radians and return `Rz @ Ry @ Rx`. -/
noncomputable def euler_to_rotation_matrix (yaw_deg pitch_deg : ℝ)
    (roll_deg : ℝ := 0) : Matrix (Fin 3) (Fin 3) ℝ :=
  Rz (radians yaw_deg) * Ry (radians roll_deg) * Rx (radians pitch_deg)

/-- `fov_to_focal_length(fov_deg, image_width)`:
`image_width / (2 * tan(radians(fov_deg) / 2))`. -/
noncomputable def fov_to_focal_length (fov_deg image_width : ℝ) : ℝ :=
  image_width / (2 * Real.tan (radians fov_deg / 2))

end Camparameters

namespace GenerateCals

/-- np.radians in the second script. -/
noncomputable def radians (d : ℝ) : ℝ := d * Real.pi / 180

/-- `Rz` of the second script's `euler_to_rotation_matrix`. -/
noncomputable def Rz (yaw : ℝ) : Matrix (Fin 3) (Fin 3) ℝ :=
  !![Real.cos yaw, -Real.sin yaw, 0;
     Real.sin yaw,  Real.cos yaw, 0;
     0,             0,            1]

/-- `Rx` of the second script's `euler_to_rotation_matrix`. -/
noncomputable def Rx (pitch : ℝ) : Matrix (Fin 3) (Fin 3) ℝ :=
  !![1, 0,              0;
     0, Real.cos pitch, -Real.sin pitch;
     0, Real.sin pitch,  Real.cos pitch]

/-- `Ry` of the second script's `euler_to_rotation_matrix`. -/
noncomputable def Ry (roll : ℝ) : Matrix (Fin 3) (Fin 3) ℝ :=
  !![Real.cos roll,  0, Real.sin roll;
     0,              1, 0;
     -Real.sin roll, 0, Real.cos roll]

/-- The second script's `euler_to_rotation_matrix(yaw_deg, pitch_deg,
roll_deg=0)`: `Rz @ Ry @ Rx` on the radian angles. -/
noncomputable def euler_to_rotation_matrix (yaw_deg pitch_deg : ℝ)
    (roll_deg : ℝ := 0) : Matrix (Fin 3) (Fin 3) ℝ :=
  Rz (radians yaw_deg) * Ry (radians roll_deg) * Rx (radians pitch_deg)

/-- The second script's `fov_to_focal_length(fov_deg, image_width)`. -/
noncomputable def fov_to_focal_length (fov_deg image_width : ℝ) : ℝ :=
  image_width / (2 * Real.tan (radians fov_deg / 2))

end GenerateCals

namespace Camparameters

/-- `save_camera_yaml(idx, name, R, focal_length, cx, cy, ip, port)`: the
name of the file it creates and the ordered keyed fields it writes,
including the intrinsic matrix K built inside the function. -/
noncomputable def save_camera_yaml (idx : ℕ) (name : String)
    (R : Matrix (Fin 3) (Fin 3) ℝ) (focal_length cx cy : ℝ)
    (ip : String) (port : ℤ) : StorageFile :=
  ("Camparam" ++ toString idx ++ ".yaml",
   [("FocalLength", .real focal_length),
    ("Intrisic", .mat3 !![focal_length, 0, cx;
                          0, focal_length, cy;
                          0, 0, 1]),
    ("Rotation", .mat3 R),
    ("Translation", .vec31 0),
    ("CameraName", .str name),
    ("CameraIP", .str ip),
    ("CameraPort", .int port)])

/-- The camera definition table of `main`:
(idx, name, yaw, pitch, roll, ip, port), with the uniform pitch-down
angle as a parameter. -/
noncomputable def cameras (pitch_down : ℝ) :
    List (ℕ × String × ℝ × ℝ × ℝ × String × ℤ) :=
  [(0, "Front", 0,   pitch_down, 0, "192.168.45.10", 5020),
   (1, "Left",  90,  pitch_down, 0, "192.168.45.11", 5021),
   (2, "Rear",  180, pitch_down, 0, "192.168.45.12", 5022),
   (3, "Right", 270, pitch_down, 0, "192.168.45.13", 5023)]

/-- The per-camera generation loop of `main`, with the script's four
hard-coded configuration constants (image width and height, horizontal
field of view, pitch-down angle) as parameters: compute the shared focal
length once, then for each camera compute its rotation matrix and save its
calibration file.  Returns the list of files written. -/
noncomputable def main (image_width image_height horizontal_fov
    pitch_down : ℝ) : List StorageFile :=
  let focal_length := fov_to_focal_length horizontal_fov image_width
  (cameras pitch_down).map (fun c =>
    match c with
    | (idx, name, yaw, pitch, roll, ip, port) =>
      save_camera_yaml idx name (euler_to_rotation_matrix yaw pitch roll)
        focal_length (image_width / 2) (image_height / 2) ip port)

/-- The run of `main` with the script's literal configuration:
image 1280×800, horizontal FOV 120°, pitch 20° down. -/
noncomputable def mainRun : List StorageFile := main 1280 800 120 20

/-- The constant `output_width = 1920` of the output-crop block. -/
def output_width : ℤ := 1920

/-- The constant `output_height = 1080` of the output-crop block. -/
def output_height : ℤ := 1080

/-- The shared output-crop file `corner_warppts.yaml` written at the end
of `main`: the resolution pair and the four named corner points, all
int32 pairs. -/
def corner_warppts : String × List (String × (ℤ × ℤ)) :=
  ("corner_warppts.yaml",
   [("res_size", (output_width, output_height)),
    ("tl", (0, 0)),
    ("tr", (output_width, 0)),
    ("bl", (0, output_height)),
    ("br", (output_width, output_height))])

end Camparameters

namespace GenerateCals

/-- The fields written for one camera inside the second script's loop
(its `fs.write` calls): only the four numeric fields, with the intrinsic
matrix K built inline from the shared focal length and the principal
point. -/
noncomputable def cameraFile (idx : ℕ) (R : Matrix (Fin 3) (Fin 3) ℝ)
    (focal_length cx cy : ℝ) : StorageFile :=
  ("Camparam" ++ toString idx ++ ".yaml",
   [("FocalLength", .real focal_length),
    ("Intrisic", .mat3 !![focal_length, 0, cx;
                          0, focal_length, cy;
                          0, 0, 1]),
    ("Rotation", .mat3 R),
    ("Translation", .vec31 0)])

/-- The second script's camera table:
(idx, name, yaw, pitch, roll, ip, port). -/
noncomputable def cameras (pitch_down : ℝ) :
    List (ℕ × String × ℝ × ℝ × ℝ × String × ℤ) :=
  [(0, "Front", 0,   pitch_down, 0, "192.168.45.10", 5020),
   (1, "Left",  90,  pitch_down, 0, "192.168.45.11", 5021),
   (2, "Rear",  180, pitch_down, 0, "192.168.45.12", 5022),
   (3, "Right", 270, pitch_down, 0, "192.168.45.13", 5023)]

/-- The second script's per-camera loop, with its four hard-coded
configuration constants as parameters.  The name, IP and port of each
camera are printed but not written to the file. -/
noncomputable def run (image_width image_height horizontal_fov
    pitch_down : ℝ) : List StorageFile :=
  let focal_length := fov_to_focal_length horizontal_fov image_width
  (cameras pitch_down).map (fun c =>
    match c with
    | (idx, _name, yaw, pitch, roll, _ip, _port) =>
      cameraFile idx (euler_to_rotation_matrix yaw pitch roll)
        focal_length (image_width / 2) (image_height / 2))

/-- The second script's run with its literal configuration. -/
noncomputable def mainRun : List StorageFile := run 1280 800 120 20

/-- The second script's `corner_warppts.yaml`: resolution and the four
corner points, hard-coded to the full 1920×1080 canvas. -/
def corner_warppts : String × List (String × (ℤ × ℤ)) :=
  ("corner_warppts.yaml",
   [("res_size", (1920, 1080)),
    ("tl", (0, 0)),
    ("tr", (1920, 0)),
    ("bl", (0, 1080)),
    ("br", (1920, 1080))])

end GenerateCals

/-- The shared focal length of the built-in rig:
`fov_to_focal_length(120, 1280)`. -/
noncomputable def rigFocal : ℝ := Camparameters.fov_to_focal_length 120 1280

/-- The shared intrinsic matrix of the built-in rig, with principal point
(640, 400) = (width/2, height/2) and zero skew. -/
noncomputable def rigIntrinsic : Matrix (Fin 3) (Fin 3) ℝ :=
  !![rigFocal, 0, 640;
     0, rigFocal, 400;
     0, 0, 1]

/-- Rotation of the Front camera (yaw 0°, pitch 20°, roll 0°). -/
noncomputable def rigRot0 : Matrix (Fin 3) (Fin 3) ℝ :=
  Camparameters.euler_to_rotation_matrix 0 20 0

/-- Rotation of the Left camera (yaw 90°, pitch 20°, roll 0°). -/
noncomputable def rigRot1 : Matrix (Fin 3) (Fin 3) ℝ :=
  Camparameters.euler_to_rotation_matrix 90 20 0

/-- Rotation of the Rear camera (yaw 180°, pitch 20°, roll 0°). -/
noncomputable def rigRot2 : Matrix (Fin 3) (Fin 3) ℝ :=
  Camparameters.euler_to_rotation_matrix 180 20 0

/-- Rotation of the Right camera (yaw 270°, pitch 20°, roll 0°). -/
noncomputable def rigRot3 : Matrix (Fin 3) (Fin 3) ℝ :=
  Camparameters.euler_to_rotation_matrix 270 20 0

/-- The non-yaw part shared by all four rig rotations:
`Ry(roll) · Rx(pitch)` at roll = 0°, pitch = 20°. -/
noncomputable def rigTilt : Matrix (Fin 3) (Fin 3) ℝ :=
  Camparameters.Ry (Camparameters.radians 0) *
    Camparameters.Rx (Camparameters.radians 20)

namespace Camparameters

lemma Rz_transpose (θ : ℝ) : (Rz θ)ᵀ =
    !![Real.cos θ,  Real.sin θ, 0;
       -Real.sin θ, Real.cos θ, 0;
       0,           0,          1] := by
  ext i j
  fin_cases i <;> fin_cases j <;> rfl

lemma Rx_transpose (θ : ℝ) : (Rx θ)ᵀ =
    !![1, 0,               0;
       0, Real.cos θ,      Real.sin θ;
       0, -Real.sin θ,     Real.cos θ] := by
  ext i j
  fin_cases i <;> fin_cases j <;> rfl

lemma Ry_transpose (θ : ℝ) : (Ry θ)ᵀ =
    !![Real.cos θ, 0, -Real.sin θ;
       0,          1, 0;
       Real.sin θ, 0, Real.cos θ] := by
  ext i j
  fin_cases i <;> fin_cases j <;> rfl

lemma Rz_transpose_mul_self (θ : ℝ) : (Rz θ)ᵀ * Rz θ = 1 := by
  rw [Rz_transpose, Rz, Matrix.mul_fin_three, Matrix.one_fin_three]
  ext i j
  fin_cases i <;> fin_cases j <;>
    simp [Matrix.vecHead, Matrix.vecTail] <;> ring_nf <;>
    linarith [Real.sin_sq_add_cos_sq θ]

lemma Rx_transpose_mul_self (θ : ℝ) : (Rx θ)ᵀ * Rx θ = 1 := by
  rw [Rx_transpose, Rx, Matrix.mul_fin_three, Matrix.one_fin_three]
  ext i j
  fin_cases i <;> fin_cases j <;>
    simp [Matrix.vecHead, Matrix.vecTail] <;> ring_nf <;>
    linarith [Real.sin_sq_add_cos_sq θ]

lemma Ry_transpose_mul_self (θ : ℝ) : (Ry θ)ᵀ * Ry θ = 1 := by
  rw [Ry_transpose, Ry, Matrix.mul_fin_three, Matrix.one_fin_three]
  ext i j
  fin_cases i <;> fin_cases j <;>
    simp [Matrix.vecHead, Matrix.vecTail] <;> ring_nf <;>
    linarith [Real.sin_sq_add_cos_sq θ]

lemma transpose_mul_self_of_prod {A B : Matrix (Fin 3) (Fin 3) ℝ}
    (hA : Aᵀ * A = 1) (hB : Bᵀ * B = 1) : (A * B)ᵀ * (A * B) = 1 := by
  rw [Matrix.transpose_mul, Matrix.mul_assoc, ← Matrix.mul_assoc Aᵀ, hA,
    Matrix.one_mul, hB]

lemma Rz_det (θ : ℝ) : (Rz θ).det = 1 := by
  simp [Rz, Matrix.det_fin_three]
  ring_nf
  linarith [Real.sin_sq_add_cos_sq θ]

lemma Rx_det (θ : ℝ) : (Rx θ).det = 1 := by
  simp [Rx, Matrix.det_fin_three]
  ring_nf
  linarith [Real.sin_sq_add_cos_sq θ]

lemma Ry_det (θ : ℝ) : (Ry θ).det = 1 := by
  simp [Ry, Matrix.det_fin_three]
  ring_nf
  linarith [Real.sin_sq_add_cos_sq θ]

end Camparameters

lemma radians_zero : Camparameters.radians 0 = 0 := by
  unfold Camparameters.radians; ring

lemma radians_90 : Camparameters.radians 90 = Real.pi / 2 := by
  unfold Camparameters.radians; ring

lemma radians_180 : Camparameters.radians 180 = Real.pi := by
  unfold Camparameters.radians; ring

lemma radians_270 : Camparameters.radians 270 = Real.pi + Real.pi / 2 := by
  unfold Camparameters.radians; ring

lemma tan_half_radians_120 :
    Real.tan (Camparameters.radians 120 / 2) = Real.sqrt 3 := by
  have h : Camparameters.radians 120 / 2 = Real.pi / 3 := by
    unfold Camparameters.radians; ring
  rw [h, Real.tan_pi_div_three]

lemma rigFocal_eq_sqrt : rigFocal = 640 / Real.sqrt 3 := by
  have h3 : Real.sqrt 3 ≠ 0 :=
    ne_of_gt (Real.sqrt_pos.mpr (by norm_num))
  rw [rigFocal, Camparameters.fov_to_focal_length, tan_half_radians_120]
  field_simp
  ring

lemma sqrt3_gt : (1.7320508 : ℝ) < Real.sqrt 3 :=
  (Real.lt_sqrt (by norm_num)).mpr (by norm_num)

lemma sqrt3_lt : Real.sqrt 3 < 1.7320509 :=
  (Real.sqrt_lt' (by norm_num)).mpr (by norm_num)

lemma rigFocal_gt : (369.504 : ℝ) < rigFocal := by
  rw [rigFocal_eq_sqrt, lt_div_iff₀ (Real.sqrt_pos.mpr (by norm_num))]
  nlinarith [sqrt3_lt]

lemma rigFocal_lt : rigFocal < 369.5042 := by
  rw [rigFocal_eq_sqrt, div_lt_iff₀ (Real.sqrt_pos.mpr (by norm_num))]
  nlinarith [sqrt3_gt]

/-- C1.  `euler_to_rotation_matrix(yawDeg, pitchDeg, rollDeg)` converts the
three degree angles to radians, builds the elementary rotations `Rz` (yaw,
about the vertical axis), `Rx` (pitch, about the horizontal axis) and `Ry`
(roll, about the viewing axis) exactly as the source writes them, and
returns the product `Rz · Ry · Rx` in that fixed order; expanding that
product gives the stated closed-form matrix. -/
theorem euler_is_Rz_mul_Ry_mul_Rx (yaw_deg pitch_deg roll_deg : ℝ) :
    Camparameters.euler_to_rotation_matrix yaw_deg pitch_deg roll_deg =
      Camparameters.Rz (Camparameters.radians yaw_deg) *
        Camparameters.Ry (Camparameters.radians roll_deg) *
        Camparameters.Rx (Camparameters.radians pitch_deg) ∧
    Camparameters.euler_to_rotation_matrix yaw_deg pitch_deg roll_deg =
      !![Real.cos (Camparameters.radians yaw_deg) *
           Real.cos (Camparameters.radians roll_deg),
         Real.cos (Camparameters.radians yaw_deg) *
             Real.sin (Camparameters.radians roll_deg) *
             Real.sin (Camparameters.radians pitch_deg) -
           Real.sin (Camparameters.radians yaw_deg) *
             Real.cos (Camparameters.radians pitch_deg),
         Real.cos (Camparameters.radians yaw_deg) *
             Real.sin (Camparameters.radians roll_deg) *
             Real.cos (Camparameters.radians pitch_deg) +
           Real.sin (Camparameters.radians yaw_deg) *
             Real.sin (Camparameters.radians pitch_deg);
         Real.sin (Camparameters.radians yaw_deg) *
           Real.cos (Camparameters.radians roll_deg),
         Real.sin (Camparameters.radians yaw_deg) *
             Real.sin (Camparameters.radians roll_deg) *
             Real.sin (Camparameters.radians pitch_deg) +
           Real.cos (Camparameters.radians yaw_deg) *
             Real.cos (Camparameters.radians pitch_deg),
         Real.sin (Camparameters.radians yaw_deg) *
             Real.sin (Camparameters.radians roll_deg) *
             Real.cos (Camparameters.radians pitch_deg) -
           Real.cos (Camparameters.radians yaw_deg) *
             Real.sin (Camparameters.radians pitch_deg);
         -Real.sin (Camparameters.radians roll_deg),
         Real.cos (Camparameters.radians roll_deg) *
           Real.sin (Camparameters.radians pitch_deg),
         Real.cos (Camparameters.radians roll_deg) *
           Real.cos (Camparameters.radians pitch_deg)] := by
  refine ⟨rfl, ?_⟩
  rw [Camparameters.euler_to_rotation_matrix, Camparameters.Rz,
    Camparameters.Ry, Camparameters.Rx, Matrix.mul_fin_three,
    Matrix.mul_fin_three]
  ext i j
  fin_cases i <;> fin_cases j <;>
    simp [Matrix.vecHead, Matrix.vecTail] <;> ring

/-- C2.  Every matrix returned by `euler_to_rotation_matrix` is orthonormal
in the exact-arithmetic model: `Rᵀ · R = I` and `det R = 1` for all angle
inputs (hence within every stated tolerance, and in particular at
yaw ∈ {0°, 90°, 180°, 270°} with pitch = 20° and roll = 0°). -/
theorem euler_orthonormal (yaw_deg pitch_deg roll_deg : ℝ) :
    (Camparameters.euler_to_rotation_matrix yaw_deg pitch_deg roll_deg)ᵀ *
        Camparameters.euler_to_rotation_matrix yaw_deg pitch_deg roll_deg = 1 ∧
    (Camparameters.euler_to_rotation_matrix yaw_deg pitch_deg roll_deg).det
      = 1 := by
  constructor
  · exact Camparameters.transpose_mul_self_of_prod
      (Camparameters.transpose_mul_self_of_prod
        (Camparameters.Rz_transpose_mul_self _)
        (Camparameters.Ry_transpose_mul_self _))
      (Camparameters.Rx_transpose_mul_self _)
  · rw [Camparameters.euler_to_rotation_matrix, Matrix.det_mul,
      Matrix.det_mul, Camparameters.Rz_det, Camparameters.Ry_det,
      Camparameters.Rx_det]
    ring

lemma euler_apply_00 (y p r : ℝ) :
    Camparameters.euler_to_rotation_matrix y p r 0 0 =
      Real.cos (Camparameters.radians y) *
        Real.cos (Camparameters.radians r) := by
  rw [Camparameters.euler_to_rotation_matrix, Camparameters.Rz,
    Camparameters.Ry, Camparameters.Rx, Matrix.mul_fin_three,
    Matrix.mul_fin_three]
  simp [Matrix.vecHead, Matrix.vecTail]

lemma euler_apply_10 (y p r : ℝ) :
    Camparameters.euler_to_rotation_matrix y p r 1 0 =
      Real.sin (Camparameters.radians y) *
        Real.cos (Camparameters.radians r) := by
  rw [Camparameters.euler_to_rotation_matrix, Camparameters.Rz,
    Camparameters.Ry, Camparameters.Rx, Matrix.mul_fin_three,
    Matrix.mul_fin_three]
  simp [Matrix.vecHead, Matrix.vecTail]

lemma rigRot0_00 : rigRot0 0 0 = 1 := by
  rw [rigRot0, euler_apply_00, radians_zero]; simp

lemma rigRot1_00 : rigRot1 0 0 = 0 := by
  rw [rigRot1, euler_apply_00, radians_90, radians_zero]; simp

lemma rigRot2_00 : rigRot2 0 0 = -1 := by
  rw [rigRot2, euler_apply_00, radians_180, radians_zero]; simp

lemma rigRot3_00 : rigRot3 0 0 = 0 := by
  rw [rigRot3, euler_apply_00, radians_270, radians_zero]
  simp [Real.cos_add]

lemma rigRot1_10 : rigRot1 1 0 = 1 := by
  rw [rigRot1, euler_apply_10, radians_90, radians_zero]; simp

lemma rigRot3_10 : rigRot3 1 0 = -1 := by
  rw [rigRot3, euler_apply_10, radians_270, radians_zero]
  simp [Real.sin_add]

lemma rigRots_pairwise_distinct :
    rigRot0 ≠ rigRot1 ∧ rigRot0 ≠ rigRot2 ∧ rigRot0 ≠ rigRot3 ∧
    rigRot1 ≠ rigRot2 ∧ rigRot1 ≠ rigRot3 ∧ rigRot2 ≠ rigRot3 := by
  refine ⟨fun h => ?_, fun h => ?_, fun h => ?_, fun h => ?_,
    fun h => ?_, fun h => ?_⟩
  · have h0 : rigRot0 0 0 = rigRot1 0 0 := by rw [h]
    rw [rigRot0_00, rigRot1_00] at h0; norm_num at h0
  · have h0 : rigRot0 0 0 = rigRot2 0 0 := by rw [h]
    rw [rigRot0_00, rigRot2_00] at h0; norm_num at h0
  · have h0 : rigRot0 0 0 = rigRot3 0 0 := by rw [h]
    rw [rigRot0_00, rigRot3_00] at h0; norm_num at h0
  · have h0 : rigRot1 0 0 = rigRot2 0 0 := by rw [h]
    rw [rigRot1_00, rigRot2_00] at h0; norm_num at h0
  · have h0 : rigRot1 1 0 = rigRot3 1 0 := by rw [h]
    rw [rigRot1_10, rigRot3_10] at h0; norm_num at h0
  · have h0 : rigRot2 0 0 = rigRot3 0 0 := by rw [h]
    rw [rigRot2_00, rigRot3_00] at h0; norm_num at h0

lemma Rz_zero : Camparameters.Rz 0 = 1 := by
  rw [Camparameters.Rz, Matrix.one_fin_three]; norm_num

lemma Ry_zero : Camparameters.Ry 0 = 1 := by
  rw [Camparameters.Ry, Matrix.one_fin_three]; norm_num

lemma Rx_zero : Camparameters.Rx 0 = 1 := by
  rw [Camparameters.Rx, Matrix.one_fin_three]; norm_num

/-- C3 counterexample.  The focal length the code computes for a 120° FOV
at width 1280 is 640/√3 ≈ 369.504; it differs from BOTH pinned spec values
369.55 and 369.95 by more than the stated tolerance 1e-2. -/
theorem focal_length_pinned_values_off :
    1e-2 < |Camparameters.fov_to_focal_length 120 1280 - 369.55| ∧
    1e-2 < |Camparameters.fov_to_focal_length 120 1280 - 369.95| := by
  have h1 : (369.504 : ℝ) < rigFocal := rigFocal_gt
  have h2 : rigFocal < 369.5042 := rigFocal_lt
  have he : Camparameters.fov_to_focal_length 120 1280 = rigFocal := rfl
  rw [he]
  constructor
  · exact lt_abs.mpr (Or.inr (by linarith))
  · exact lt_abs.mpr (Or.inr (by linarith))

/-- C3 amended.  `fov_to_focal_length(fovDeg, widthPx)` is
`widthPx / (2·tan(radians(fovDeg/2)))` for every input (no domain
restriction is enforced by the code); at 120° and 1280 px it equals
640/√3, which is ≈ 369.504 within tolerance 1e-2 (and not ≈ 369.55 or
≈ 369.95 at that tolerance). -/
theorem focal_length_formula_and_value :
    (∀ fov_deg image_width : ℝ,
      Camparameters.fov_to_focal_length fov_deg image_width =
        image_width /
          (2 * Real.tan (Camparameters.radians (fov_deg / 2)))) ∧
    Camparameters.fov_to_focal_length 120 1280 = 640 / Real.sqrt 3 ∧
    |Camparameters.fov_to_focal_length 120 1280 - 369.504| < 1e-2 := by
  refine ⟨fun fov_deg image_width => ?_, rigFocal_eq_sqrt, ?_⟩
  · rw [Camparameters.fov_to_focal_length]
    have h : Camparameters.radians fov_deg / 2 =
        Camparameters.radians (fov_deg / 2) := by
      unfold Camparameters.radians; ring
    rw [h]
  · have h1 : (369.504 : ℝ) < rigFocal := rigFocal_gt
    have h2 : rigFocal < 369.5042 := rigFocal_lt
    have he : Camparameters.fov_to_focal_length 120 1280 = rigFocal := rfl
    rw [he, abs_lt]
    constructor <;> linarith

lemma rigRot0_factored :
    rigRot0 = Camparameters.Rz (Camparameters.radians 0) * rigTilt := by
  rw [rigRot0, Camparameters.euler_to_rotation_matrix, rigTilt,
    Matrix.mul_assoc]

lemma rigRot1_factored :
    rigRot1 = Camparameters.Rz (Camparameters.radians 90) * rigTilt := by
  rw [rigRot1, Camparameters.euler_to_rotation_matrix, rigTilt,
    Matrix.mul_assoc]

lemma rigRot2_factored :
    rigRot2 = Camparameters.Rz (Camparameters.radians 180) * rigTilt := by
  rw [rigRot2, Camparameters.euler_to_rotation_matrix, rigTilt,
    Matrix.mul_assoc]

lemma rigRot3_factored :
    rigRot3 = Camparameters.Rz (Camparameters.radians 270) * rigTilt := by
  rw [rigRot3, Camparameters.euler_to_rotation_matrix, rigTilt,
    Matrix.mul_assoc]

/-- C4.  For the built-in rig (1280×800, FOV 120°, pitch 20° down, cameras
Front/Left/Rear/Right at yaw 0°/90°/180°/270°), the run produces exactly 4
calibration records; all four carry the same focal length `rigFocal`
(which is within 0.05 of 369.55) and the same intrinsic matrix
`[[f,0,640],[0,f,400],[0,0,1]]` with cx = width/2, cy = height/2 and zero
skew; their four rotation matrices are mutually distinct and each equals
`Rz(yaw_i) · (Ry(0) · Rx(20°))`, so they differ only in the yaw-axis
factor. -/
theorem rig_scenario_four_records :
    Camparameters.mainRun =
      [Camparameters.save_camera_yaml 0 "Front" rigRot0 rigFocal 640 400
         "192.168.45.10" 5020,
       Camparameters.save_camera_yaml 1 "Left" rigRot1 rigFocal 640 400
         "192.168.45.11" 5021,
       Camparameters.save_camera_yaml 2 "Rear" rigRot2 rigFocal 640 400
         "192.168.45.12" 5022,
       Camparameters.save_camera_yaml 3 "Right" rigRot3 rigFocal 640 400
         "192.168.45.13" 5023] ∧
    Camparameters.mainRun.length = 4 ∧
    ([Camparameters.save_camera_yaml 0 "Front" rigRot0 rigFocal 640 400
        "192.168.45.10" 5020,
      Camparameters.save_camera_yaml 1 "Left" rigRot1 rigFocal 640 400
        "192.168.45.11" 5021,
      Camparameters.save_camera_yaml 2 "Rear" rigRot2 rigFocal 640 400
        "192.168.45.12" 5022,
      Camparameters.save_camera_yaml 3 "Right" rigRot3 rigFocal 640 400
        "192.168.45.13" 5023].map (fun fl => fl.2.lookup "FocalLength") =
      List.replicate 4 (some (.real rigFocal))) ∧
    ([Camparameters.save_camera_yaml 0 "Front" rigRot0 rigFocal 640 400
        "192.168.45.10" 5020,
      Camparameters.save_camera_yaml 1 "Left" rigRot1 rigFocal 640 400
        "192.168.45.11" 5021,
      Camparameters.save_camera_yaml 2 "Rear" rigRot2 rigFocal 640 400
        "192.168.45.12" 5022,
      Camparameters.save_camera_yaml 3 "Right" rigRot3 rigFocal 640 400
        "192.168.45.13" 5023].map (fun fl => fl.2.lookup "Intrisic") =
      List.replicate 4 (some (.mat3 rigIntrinsic))) ∧
    rigIntrinsic = !![rigFocal, 0, 1280 / 2;
                      0, rigFocal, 800 / 2;
                      0, 0, 1] ∧
    |rigFocal - 369.55| < 0.05 ∧
    (rigRot0 ≠ rigRot1 ∧ rigRot0 ≠ rigRot2 ∧ rigRot0 ≠ rigRot3 ∧
     rigRot1 ≠ rigRot2 ∧ rigRot1 ≠ rigRot3 ∧ rigRot2 ≠ rigRot3) ∧
    rigRot0 = Camparameters.Rz (Camparameters.radians 0) * rigTilt ∧
    rigRot1 = Camparameters.Rz (Camparameters.radians 90) * rigTilt ∧
    rigRot2 = Camparameters.Rz (Camparameters.radians 180) * rigTilt ∧
    rigRot3 = Camparameters.Rz (Camparameters.radians 270) * rigTilt := by
  have hw : (1280 : ℝ) / 2 = 640 := by norm_num
  have hh : (800 : ℝ) / 2 = 400 := by norm_num
  refine ⟨?_, rfl, rfl, rfl, ?_, ?_, rigRots_pairwise_distinct,
    rigRot0_factored, rigRot1_factored, rigRot2_factored, rigRot3_factored⟩
  · simp [Camparameters.mainRun, Camparameters.main, Camparameters.cameras,
      hw, hh, rigRot0, rigRot1, rigRot2, rigRot3, rigFocal]
  · rw [rigIntrinsic, hw, hh]
  · have h1 : (369.504 : ℝ) < rigFocal := rigFocal_gt
    have h2 : rigFocal < 369.5042 := rigFocal_lt
    rw [abs_lt]
    constructor <;> linarith

/-- C10.  `euler_to_rotation_matrix(0, 0, 0)` is the 3×3 identity matrix,
and since the roll argument defaults to 0, `euler_to_rotation_matrix(yaw,
pitch)` is `euler_to_rotation_matrix(yaw, pitch, 0)` for every yaw and
pitch. -/
theorem euler_zero_angles_identity :
    Camparameters.euler_to_rotation_matrix 0 0 0 = 1 ∧
    ∀ yaw_deg pitch_deg : ℝ,
      Camparameters.euler_to_rotation_matrix yaw_deg pitch_deg =
        Camparameters.euler_to_rotation_matrix yaw_deg pitch_deg 0 := by
  constructor
  · rw [Camparameters.euler_to_rotation_matrix, radians_zero, Rz_zero,
      Ry_zero, Rx_zero, Matrix.one_mul, Matrix.one_mul]
  · exact fun _ _ => rfl

/-- C8.  The shared output-crop descriptor is always the full-canvas
rectangle for resolution (1920, 1080): it holds the resolution as a pair
of integers and exactly the corner points tl=(0,0), tr=(1920,0),
bl=(0,1080), br=(1920,1080); both script variants write the same file,
and it is built from constants only, independent of any per-camera
data. -/
theorem output_crop_full_canvas :
    Camparameters.corner_warppts =
      ("corner_warppts.yaml",
       [("res_size", ((1920 : ℤ), (1080 : ℤ))),
        ("tl", (0, 0)),
        ("tr", (1920, 0)),
        ("bl", (0, 1080)),
        ("br", (1920, 1080))]) ∧
    GenerateCals.corner_warppts = Camparameters.corner_warppts := by
  exact ⟨rfl, rfl⟩

/-- C6.  The code performs no field-of-view validation: with the FOV
configuration constant set to 180 or to 0 the generation loop still
produces all four per-camera files (silent success), instead of raising a
ConfigurationError and stopping.  The failing inputs are
horizontalFovDeg = 180 and horizontalFovDeg = 0. -/
theorem no_fov_validation_run_proceeds :
    (Camparameters.main 1280 800 180 20).length = 4 ∧
    (Camparameters.main 1280 800 0 20).length = 4 := by
  exact ⟨rfl, rfl⟩

/-- C5 counterexample.  In the `calibrationData/GenerateCals` variant the
per-camera files contain only the four numeric fields: every file of its
run has key list [FocalLength, Intrisic, Rotation, Translation], and in
particular the key "CameraName" of the format contract is absent (as are
"CameraIP" and "CameraPort"). -/
theorem calibrationData_files_lack_metadata :
    GenerateCals.mainRun.map (fun fl => fl.2.map Prod.fst) =
      [["FocalLength", "Intrisic", "Rotation", "Translation"],
       ["FocalLength", "Intrisic", "Rotation", "Translation"],
       ["FocalLength", "Intrisic", "Rotation", "Translation"],
       ["FocalLength", "Intrisic", "Rotation", "Translation"]] ∧
    ¬ ("CameraName" ∈ ["FocalLength", "Intrisic", "Rotation",
        "Translation"]) ∧
    ¬ ("CameraIP" ∈ ["FocalLength", "Intrisic", "Rotation",
        "Translation"]) ∧
    ¬ ("CameraPort" ∈ ["FocalLength", "Intrisic", "Rotation",
        "Translation"]) := by
  refine ⟨rfl, by decide, by decide, by decide⟩

/-- C5 amended.  Files written by `save_camera_yaml` in the
`camparameters` variant carry exactly the seven contract fields, in order:
focal length (float), the 3×3 intrinsic matrix under the misspelled key
"Intrisic", the 3×3 rotation matrix, the 3×1 translation vector which is
always the zero vector, camera name, camera IP and camera port; the file
is named Camparam<index>.yaml.  The `calibrationData` variant's files
carry only the first four of these fields. -/
theorem camparam_file_contract (idx : ℕ) (name : String)
    (R : Matrix (Fin 3) (Fin 3) ℝ) (focal_length cx cy : ℝ)
    (ip : String) (port : ℤ) :
    (Camparameters.save_camera_yaml idx name R focal_length cx cy
        ip port).1 = "Camparam" ++ toString idx ++ ".yaml" ∧
    (Camparameters.save_camera_yaml idx name R focal_length cx cy
        ip port).2.map Prod.fst =
      ["FocalLength", "Intrisic", "Rotation", "Translation",
       "CameraName", "CameraIP", "CameraPort"] ∧
    (Camparameters.save_camera_yaml idx name R focal_length cx cy
        ip port).2.lookup "FocalLength" = some (.real focal_length) ∧
    (Camparameters.save_camera_yaml idx name R focal_length cx cy
        ip port).2.lookup "Intrisic" =
      some (.mat3 !![focal_length, 0, cx;
                     0, focal_length, cy;
                     0, 0, 1]) ∧
    (Camparameters.save_camera_yaml idx name R focal_length cx cy
        ip port).2.lookup "Rotation" = some (.mat3 R) ∧
    (Camparameters.save_camera_yaml idx name R focal_length cx cy
        ip port).2.lookup "Translation" =
      some (.vec31 (0 : Matrix (Fin 3) (Fin 1) ℝ)) ∧
    (Camparameters.save_camera_yaml idx name R focal_length cx cy
        ip port).2.lookup "CameraName" = some (.str name) ∧
    (Camparameters.save_camera_yaml idx name R focal_length cx cy
        ip port).2.lookup "CameraIP" = some (.str ip) ∧
    (Camparameters.save_camera_yaml idx name R focal_length cx cy
        ip port).2.lookup "CameraPort" = some (.int port) ∧
    (GenerateCals.cameraFile idx R focal_length cx cy).2 =
      (Camparameters.save_camera_yaml idx name R focal_length cx cy
        ip port).2.take 4 := by
  refine ⟨rfl, rfl, rfl, rfl, rfl, rfl, rfl, rfl, rfl, rfl⟩

/-- C9 counterexample.  The two variants do NOT write equivalent
per-camera calibration content for the built-in rig: the first file of the
`camparameters` run has 7 fields while the first file of the
`calibrationData` run has only 4, so the two camera-0 files differ. -/
theorem variant_camera_files_differ :
    Camparameters.mainRun.headI.2.length = 7 ∧
    GenerateCals.mainRun.headI.2.length = 4 ∧
    Camparameters.mainRun.headI ≠ GenerateCals.mainRun.headI := by
  refine ⟨rfl, rfl, fun h => ?_⟩
  have hlen := congrArg (fun fl => fl.2.length) h
  have h74 : (7 : ℕ) = 4 := hlen
  norm_num at h74

/-- C9 amended.  The geometry functions of the two variants agree on every
input, and for every configuration the files of the `calibrationData`
variant are exactly the files of the `camparameters` variant truncated to
their first four fields (same names, same numeric content); the variants
are not fully equivalent because `camparameters` additionally writes the
CameraName, CameraIP and CameraPort fields. -/
theorem variants_geometry_agree_files_truncated :
    (∀ yaw_deg pitch_deg roll_deg : ℝ,
      Camparameters.euler_to_rotation_matrix yaw_deg pitch_deg roll_deg =
        GenerateCals.euler_to_rotation_matrix yaw_deg pitch_deg roll_deg) ∧
    (∀ fov_deg image_width : ℝ,
      Camparameters.fov_to_focal_length fov_deg image_width =
        GenerateCals.fov_to_focal_length fov_deg image_width) ∧
    (∀ image_width image_height horizontal_fov pitch_down : ℝ,
      GenerateCals.run image_width image_height horizontal_fov pitch_down =
        (Camparameters.main image_width image_height horizontal_fov
          pitch_down).map (fun fl => (fl.1, fl.2.take 4))) := by
  refine ⟨fun _ _ _ => rfl, fun _ _ => rfl, fun w h fov pd => rfl⟩
